import Mathlib

/-!
Shallow embedding of the credential and token lifecycle subsystem of the
devlinks-app repository (Express-style auth controller in
src/unnamed/part_000, lines 43-245), together with theorems settling the
frozen claims about it.

Conventions of the embedding:
- The persistent user store is a `List UserRecord`; a Mongoose
  `findOne(filter)` is `List.find?` with the corresponding Boolean
  predicate, and `document.save()` is `updateById` (replace the record
  with the same `id`).
- `catchAsync` forwards a thrown non-`AppError` exception to the global
  error middleware; this is the `FlowResult.thrown` constructor, while
  `next(new AppError(message, status))` is `FlowResult.failure`.
- External collaborators (SHA-256 fingerprinting, bcrypt password
  comparison, JWT signature verification, email transport outcome,
  Mongo id generation, randomness, the clock) are parameters of the
  flow functions, so every theorem quantifies over them.
- Parts of the repository that the claims depend on but that are not
  under src/ (the user model methods, the global error middleware) are
  modelled from the spec; each such definition carries a doc comment
  starting with "Modelled from the spec:".
-/

namespace DevLinks

/-- `AppError(message, statusCode)` from utils/appError: an operational
error carrying a user-facing message and an HTTP status code. -/
structure AppError where
  message : String
  statusCode : Nat
deriving DecidableEq, Repr

/-- A user document of the user model, restricted to the fields the auth
controller reads and writes.  `password` holds the stored (hashed)
password; the three token fields are `undefined`-able, hence `Option`. -/
structure UserRecord where
  id : Nat
  email : String
  password : String
  isVerified : Bool
  emailVerificationToken : Option String
  passwordResetToken : Option String
  passwordResetExpires : Option Nat
deriving DecidableEq, Repr

/-- Outcome of one request to a flow wrapped in `catchAsync`:
a JSON success response, a `next(AppError ...)` rejection, a Mongoose
validation rejection raised by `save()` (the validators live in the user
model, which is not under src/), or a thrown non-AppError exception
(named by its JavaScript error class) forwarded by `catchAsync`. -/
inductive FlowResult where
  | success (status : Nat) (message : String)
  | failure (e : AppError)
  | validationError
  | thrown (name : String)
deriving DecidableEq, Repr

/-- A flow outcome that is not a success response. -/
def FlowResult.isFailure : FlowResult → Bool
  | .success _ _ => false
  | _ => true

/-- Modelled from the spec: the global error-handling middleware (not
under src/) maps an `AppError` to its own status code, a Mongoose
validation rejection to a 400 `ValidationError`, and any other thrown
exception to an internal 500 response (section 7 of the spec). -/
def statusOf : FlowResult → Nat
  | .success s _ => s
  | .failure e => e.statusCode
  | .validationError => 400
  | .thrown _ => 500

/-- `document.save()` on a fetched document: persist the modified record
in place, addressing it by its immutable `id`. -/
def updateById (store : List UserRecord) (uid : Nat) (u : UserRecord) :
    List UserRecord :=
  store.map (fun v => if v.id == uid then u else v)

/-- Modelled from the spec: `User.createEmailVerificationToken` (the user
model is not under src/) — generates a random raw token, stores only its
SHA-256 fingerprint on the record, and returns the raw token (sections
4.1 and 4.2 of the spec).  Randomness is externalized: `raw` is the fresh
raw token and `sha256` the fingerprinting function. -/
def createEmailVerificationToken (sha256 : String → String) (raw : String)
    (u : UserRecord) : UserRecord :=
  { u with emailVerificationToken := some (sha256 raw) }

/-- Modelled from the spec: `User.createPasswordResetToken` (the user
model is not under src/) — stores the SHA-256 fingerprint of a fresh raw
reset token and an expiry timestamp 10 minutes (600000 ms) in the future,
and returns the raw token (sections 4.1 and 4.5 of the spec). -/
def createPasswordResetToken (sha256 : String → String) (raw : String)
    (now : Nat) (u : UserRecord) : UserRecord :=
  { u with passwordResetToken := some (sha256 raw),
           passwordResetExpires := some (now + 10 * 60 * 1000) }

/-- `exports.signup` (src/unnamed/part_000 lines 43-82): reject a
duplicate email, otherwise build the new user (password hashing and the
password-confirmation validator run inside the user model, which is not
under src/ and is modelled from the spec via `hashPw` and the mismatch
check), give it a verification token, persist it, then send the
verification email.  The email transport outcome is the `emailOk`
parameter; a failed send throws out of `await sendEmail(...)`, which has
no surrounding try/catch, so `catchAsync` forwards it after the record
has already been saved. -/
def signup (sha256 hashPw : String → String) (store : List UserRecord)
    (email password confirmPassword : String) (freshId : Nat)
    (rawVerTok : String) (emailOk : Bool) : FlowResult × List UserRecord :=
  match store.find? (fun u => u.email == email) with
  | some _ =>
      (.failure (AppError.mk "User already exists with this email address." 400),
       store)
  | none =>
      if password = confirmPassword then
        let newUser : UserRecord :=
          createEmailVerificationToken sha256 rawVerTok
            { id := freshId, email := email, password := hashPw password,
              isVerified := false, emailVerificationToken := none,
              passwordResetToken := none, passwordResetExpires := none }
        let saved := store ++ [newUser]
        if emailOk then
          (.success 201 "Verification email sent. Please verify your email address.",
           saved)
        else
          (.thrown "EmailSendError", saved)
      else
        (.validationError, store)

/-- The `findOne` filter of `verifyEmail`: the stored verification token
fingerprint equals the fingerprint of the presented raw token. -/
def verMatches (hashedToken : String) (u : UserRecord) : Bool :=
  u.emailVerificationToken == some hashedToken

/-- `exports.verifyEmail` (src/unnamed/part_000 lines 84-103): read the
`token` query parameter, fingerprint it with SHA-256 (Node crypto throws
a `TypeError` when `update` receives `undefined`, i.e. when the query
parameter is absent), look the fingerprint up, reject with a 400
`AppError` when no record matches, otherwise set `isVerified = true` and
persist with `validateBeforeSave: false`. -/
def verifyEmail (sha256 : String → String) (store : List UserRecord)
    (tokenParam : Option String) : FlowResult × List UserRecord :=
  match tokenParam with
  | none => (.thrown "TypeError", store)
  | some t =>
      let hashedToken := sha256 t
      match store.find? (verMatches hashedToken) with
      | none =>
          (.failure (AppError.mk "Invalid or expired verification token." 400),
           store)
      | some u =>
          (.success 200 "Email verified successfully.",
           updateById store u.id { u with isVerified := true })

/-- A request-body field is blank when it is absent or the empty string
(both are falsy in JavaScript). -/
def blank : Option String → Bool
  | none => true
  | some s => s == ""

/-- `exports.login` (src/unnamed/part_000 lines 105-128): reject blank
fields, look the record up by email, compare the password with the
one-way `matchPassword` comparison of the user model (not under src/,
hence a parameter), reject unverified accounts, and on success issue a
session token via `createSendToken`.  Login never writes to the store,
so only the response is returned. -/
def login (matchPassword : String → String → Bool) (store : List UserRecord)
    (emailParam passwordParam : Option String) : FlowResult :=
  if blank emailParam || blank passwordParam then
    .failure (AppError.mk "Please provide email and password." 400)
  else
    let email := emailParam.getD ""
    let password := passwordParam.getD ""
    match store.find? (fun u => u.email == email) with
    | none => .failure (AppError.mk "Invalid email or password." 401)
    | some u =>
        if !matchPassword password u.password then
          .failure (AppError.mk "Invalid email or password." 401)
        else if !u.isVerified then
          .failure
            (AppError.mk
              "Your email is not verified. Please verify your email address."
              401)
        else
          .success 200 "token"

/-- Outcome of the protected-route gate: the resolved user record is
attached to the request (`req.user = currentUser`) and control passes to
the downstream handler, or a `next(AppError ...)` rejection, or the
exception thrown by `jwt.verify` and forwarded by `catchAsync`. -/
inductive GateResult where
  | ok (u : UserRecord)
  | err (e : AppError)
  | jwtThrown
deriving DecidableEq, Repr

/-- Modelled from the spec: the global error-handling middleware (not
under src/) maps the exception thrown by a failed JWT signature or
expiry verification to a 401 `AuthenticationError` (section 4.4 of the
spec); an `AppError` keeps its own status. -/
def gateStatus : GateResult → Nat
  | .ok _ => 200
  | .err e => e.statusCode
  | .jwtThrown => 401

/-- JavaScript `String.prototype.split(' ')`, written on character lists
so that concrete requests evaluate: splits at every single space,
keeping empty fragments, exactly as `'a  b'.split(' ')` yields
`['a', '', 'b']`. -/
def splitSpaceChars : List Char → List Char → List String
  | [], acc => [String.mk acc.reverse]
  | c :: cs, acc =>
      if c = ' ' then String.mk acc.reverse :: splitSpaceChars cs []
      else splitSpaceChars cs (c :: acc)

/-- `header.split(' ')` of the protected-route gate. -/
def splitSpace (s : String) : List String := splitSpaceChars s.toList []

/-- `header.startsWith('Bearer')` of the protected-route gate. -/
def startsWithBearer (s : String) : Bool :=
  s.toList.take 6 == "Bearer".toList

/-- The bearer-token extraction of `exports.protected`: when an
`authorization` header is present and starts with `Bearer`, the token is
the second space-separated word (possibly absent). -/
def extractBearer (authHeader : Option String) : Option String :=
  match authHeader with
  | some h => if startsWithBearer h then (splitSpace h).get? 1 else none
  | none => none

/-- `exports.protected` (src/unnamed/part_000 lines 130-161): extract the
bearer token; reject with `Invalid token provided` when it is absent or
shorter than 20 characters; the following `if (!token)` re-check is kept
faithfully; then verify the token signature (`jwt.verify`, an external
library, is the `verifyJwt` parameter returning the subject id on
success; on failure it throws), resolve the subject id to a user record,
and attach that record for the downstream handler. -/
def protectedGate (verifyJwt : String → Option Nat) (store : List UserRecord)
    (authHeader : Option String) : GateResult :=
  let token := extractBearer authHeader
  if token.isNone || (token.getD "").length < 20 then
    .err (AppError.mk "Invalid token provided" 401)
  else if token.isNone then
    .err (AppError.mk "You are not logged in! Please log in to get access." 401)
  else
    match verifyJwt (token.getD "") with
    | none => .jwtThrown
    | some id =>
        match store.find? (fun u => u.id == id) with
        | none =>
            .err (AppError.mk
              "The user belonging to this token does no longer exist." 401)
        | some u => .ok u

/-- `exports.forgotPassword` (src/unnamed/part_000 lines 163-211): look
the record up by email (404 when absent), set the reset token fingerprint
and expiry via `createPasswordResetToken`, persist, then try to send the
reset email.  When the send throws, both reset fields are set back to
`undefined`, the record is persisted again, and a 500 `AppError` is
surfaced. -/
def forgotPassword (sha256 : String → String) (store : List UserRecord)
    (email : String) (rawResetTok : String) (now : Nat) (emailOk : Bool) :
    FlowResult × List UserRecord :=
  match store.find? (fun u => u.email == email) with
  | none =>
      (.failure
        (AppError.mk "We can\x27t find a user with that email address." 404),
       store)
  | some u =>
      let withToken := createPasswordResetToken sha256 rawResetTok now u
      let saved := updateById store u.id withToken
      if emailOk then
        (.success 200 "Password reset email sent. Please check your email.",
         saved)
      else
        let cleared := { withToken with passwordResetToken := none,
                                        passwordResetExpires := none }
        (.failure
          (AppError.mk
            "There was an error sending the password reset email. Please try again later."
            500),
         updateById saved u.id cleared)

/-- The `findOne` filter of `resetPassword`: the stored reset fingerprint
equals the fingerprint of the presented raw token AND
`passwordResetExpires: { $gt: Date.now() }` (an absent expiry never
satisfies `$gt`). -/
def resetMatches (hashedToken : String) (now : Nat) (u : UserRecord) : Bool :=
  u.passwordResetToken == some hashedToken &&
    (match u.passwordResetExpires with
     | some e => decide (now < e)
     | none => false)

/-- `exports.resetPassword` (src/unnamed/part_000 lines 213-237): read
the `token` query parameter and fingerprint it (Node crypto throws a
`TypeError` on an absent parameter), look up a record whose stored reset
fingerprint matches and whose expiry is strictly in the future, reject
with a 400 `AppError` otherwise; on a match set the new password and
clear both reset fields, then `save()` (which runs the user-model
validators — modelled from the spec as the password-confirmation
mismatch check — and the pre-save password hashing `hashPw`, both in the
user model, which is not under src/). -/
def resetPassword (sha256 hashPw : String → String) (store : List UserRecord)
    (tokenParam : Option String) (password confirmPassword : String)
    (now : Nat) : FlowResult × List UserRecord :=
  match tokenParam with
  | none => (.thrown "TypeError", store)
  | some t =>
      let hashedToken := sha256 t
      match store.find? (resetMatches hashedToken now) with
      | none =>
          (.failure
            (AppError.mk "Password reset token is invalid or has expired." 400),
           store)
      | some u =>
          if password = confirmPassword then
            let updated := { u with password := hashPw password,
                                    passwordResetToken := none,
                                    passwordResetExpires := none }
            (.success 200 "token", updateById store u.id updated)
          else
            (.validationError, store)

/-! ## Helper lemmas -/

/-- `find?` only depends on the values of the predicate on the list. -/
theorem find?_eqOn {α : Type} (f g : α → Bool) (xs : List α)
    (hfg : ∀ a, a ∈ xs → f a = g a) : xs.find? f = xs.find? g := by
  induction xs with
  | nil => rfl
  | cons b bs ih =>
    have hb : f b = g b := hfg b (List.mem_cons_self b bs)
    have hbs : bs.find? f = bs.find? g :=
      ih (fun a ha => hfg a (List.mem_cons_of_mem b ha))
    simp only [List.find?, hb, hbs]

/-- Two consecutive saves of records carrying the same id collapse to the
last one. -/
theorem updateById_updateById (store : List UserRecord) (uid : Nat)
    (a b : UserRecord) (ha : a.id = uid) :
    updateById (updateById store uid a) uid b = updateById store uid b := by
  unfold updateById
  rw [List.map_map]
  refine List.map_congr_left ?_
  intro v _
  by_cases h : v.id == uid
  · simp [Function.comp, h, ha]
  · simp [Function.comp, h]

/-! ## Sample data for witnesses and counterexamples -/

/-- A concrete stand-in for the SHA-256 fingerprint in witnesses. -/
def sampleSha (s : String) : String := String.append "sha#" s

/-- A concrete stand-in for the one-way password hash in witnesses. -/
def sampleHash (s : String) : String := String.append "h#" s

/-- A concrete unverified user carrying a verification-token fingerprint. -/
def sampleUser : UserRecord :=
  { id := 1, email := "a@x.com", password := sampleHash "Pw123456",
    isVerified := false,
    emailVerificationToken := some (sampleSha "tok"),
    passwordResetToken := none, passwordResetExpires := none }

/-- A concrete user carrying a pending password reset issued at time 0,
hence expiring at 600000 ms. -/
def sampleResetUser : UserRecord :=
  { id := 2, email := "b@x.com", password := sampleHash "Pw123456",
    isVerified := true,
    emailVerificationToken := none,
    passwordResetToken := some (sampleSha "rtok"),
    passwordResetExpires := some 600000 }

/-- A concrete JWT verifier accepting exactly one 20-character token with
subject id 1. -/
def sampleJwt (s : String) : Option Nat :=
  if s == "tokentokentokentoken" then some 1 else none

/-! ## Claim theorems -/

/-- C10: when the `token` query parameter is absent, `verifyEmail` and
`resetPassword` throw a `TypeError` inside the SHA-256 fingerprint
computation before any store lookup: the store is returned unchanged for
every store, the outcome surfaces as an internal 500 error, and it is not
the 400 `InvalidTokenError` of either flow. -/
theorem missing_token_internal_error
    (sha256 hashPw : String → String) (store : List UserRecord)
    (password confirmPassword : String) (now : Nat) :
    verifyEmail sha256 store none = (.thrown "TypeError", store) ∧
    resetPassword sha256 hashPw store none password confirmPassword now
      = (.thrown "TypeError", store) ∧
    statusOf (.thrown "TypeError") = 500 ∧
    (.thrown "TypeError" : FlowResult)
      ≠ .failure (AppError.mk "Invalid or expired verification token." 400) ∧
    (.thrown "TypeError" : FlowResult)
      ≠ .failure (AppError.mk "Password reset token is invalid or has expired." 400) :=
  ⟨rfl, rfl, rfl, by decide, by decide⟩

/-- C10 witness: the theorem evaluated at a concrete store and arguments. -/
theorem missing_token_internal_error_witness :
    verifyEmail sampleSha [sampleUser] none = (.thrown "TypeError", [sampleUser]) ∧
    resetPassword sampleSha sampleHash [sampleUser] none "p" "p" 0
      = (.thrown "TypeError", [sampleUser]) :=
  ⟨(missing_token_internal_error sampleSha sampleHash [sampleUser] "p" "p" 0).1,
   (missing_token_internal_error sampleSha sampleHash [sampleUser] "p" "p" 0).2.1⟩

/-- C9: the `You are not logged in!` branch of the protected-route gate
is dead code: a request whose extracted bearer token is absent is already
rejected by the preceding length pre-check with `Invalid token provided`,
and no input at all makes the gate return the `You are not logged in!`
error. -/
theorem protectedGate_dead_branch
    (verifyJwt : String → Option Nat) (store : List UserRecord)
    (authHeader : Option String) :
    (extractBearer authHeader = none →
      protectedGate verifyJwt store authHeader
        = .err (AppError.mk "Invalid token provided" 401)) ∧
    protectedGate verifyJwt store authHeader
      ≠ .err (AppError.mk
          "You are not logged in! Please log in to get access." 401) := by
  constructor
  · intro h
    simp [protectedGate, h]
  · unfold protectedGate
    cases hT : extractBearer authHeader with
    | none => simp
    | some t =>
      simp only [Option.isNone_some, Bool.false_or, Option.getD_some]
      by_cases hl : t.length < 20
      · simp [hl]
      · simp only [hl, decide_False, if_false, decide_eq_true_eq]
        cases verifyJwt t with
        | none => simp
        | some id =>
          cases hF : store.find? (fun u => u.id == id) with
          | none => simp [hF]
          | some u => simp [hF]

/-- C9 witness: the theorem evaluated at a concrete request with no
authorization header. -/
theorem protectedGate_dead_branch_witness :
    protectedGate sampleJwt [sampleUser] none
      = .err (AppError.mk "Invalid token provided" 401) :=
  (protectedGate_dead_branch sampleJwt [sampleUser] none).1 rfl

/-- C5: for every login attempt with a non-blank email and password, the
unknown-email case and the wrong-password-on-existing-email case both
produce the very same `AppError` (message `Invalid email or password.`,
status 401), so the two failure causes are externally
indistinguishable. -/
theorem login_indistinguishable_failures
    (matchPassword : String → String → Bool) (store : List UserRecord)
    (emailParam passwordParam : Option String)
    (hEmail : blank emailParam = false) (hPw : blank passwordParam = false) :
    (store.find? (fun u => u.email == emailParam.getD "") = none →
      login matchPassword store emailParam passwordParam
        = .failure (AppError.mk "Invalid email or password." 401)) ∧
    (∀ u, store.find? (fun u => u.email == emailParam.getD "") = some u →
      matchPassword (passwordParam.getD "") u.password = false →
      login matchPassword store emailParam passwordParam
        = .failure (AppError.mk "Invalid email or password." 401)) := by
  constructor
  · intro h
    simp only [login, hEmail, hPw, Bool.or_self, Bool.false_eq_true,
      if_false, h]
  · intro u hu hmp
    simp only [login, hEmail, hPw, Bool.or_self, Bool.false_eq_true,
      if_false, hu, hmp, Bool.not_false, if_true]

/-- C5 witness: with one stored record for `a@x.com` and a comparison
that rejects the supplied password, logging in as the unknown
`b@x.com` and logging in as `a@x.com` with the wrong password yield the
identical error. -/
theorem login_indistinguishable_failures_witness :
    login (fun _ _ => false) [sampleUser] (some "b@x.com") (some "wrong")
      = .failure (AppError.mk "Invalid email or password." 401) ∧
    login (fun _ _ => false) [sampleUser] (some "a@x.com") (some "wrong")
      = .failure (AppError.mk "Invalid email or password." 401) :=
  ⟨(login_indistinguishable_failures (fun _ _ => false) [sampleUser]
      (some "b@x.com") (some "wrong") (by decide) (by decide)).1 (by decide),
   (login_indistinguishable_failures (fun _ _ => false) [sampleUser]
      (some "a@x.com") (some "wrong") (by decide) (by decide)).2
     sampleUser (by decide) rfl⟩

/-- C6: `resetPassword` fails with the single 400 error
`Password reset token is invalid or has expired.` and leaves the store
unchanged whenever every record either does not carry the fingerprint of
the presented raw token or carries it with an expiry that is not strictly
later than the current time; in particular, a never-used token whose
expiry has elapsed is rejected, through the same externally visible error
as a token that never existed. -/
theorem resetPassword_rejects_invalid_or_expired
    (sha256 hashPw : String → String) (store : List UserRecord)
    (t password confirmPassword : String) (now : Nat)
    (h : ∀ u ∈ store, u.passwordResetToken = some (sha256 t) →
      ∀ e, u.passwordResetExpires = some e → e ≤ now) :
    resetPassword sha256 hashPw store (some t) password confirmPassword now
      = (.failure (AppError.mk "Password reset token is invalid or has expired." 400),
         store) := by
  have hfind : store.find? (resetMatches (sha256 t) now) = none := by
    rw [List.find?_eq_none]
    intro u hu hmatch
    unfold resetMatches at hmatch
    rw [Bool.and_eq_true] at hmatch
    obtain ⟨htok, hexp⟩ := hmatch
    rw [beq_iff_eq] at htok
    cases he : u.passwordResetExpires with
    | none => rw [he] at hexp; exact Bool.false_ne_true hexp
    | some e =>
      rw [he] at hexp
      have hlt : now < e := of_decide_eq_true hexp
      have hle : e ≤ now := h u hu htok e he
      exact absurd hlt (Nat.not_lt.mpr hle)
  simp only [resetPassword, hfind]

/-- C6 witness: the reset token of `sampleResetUser` was issued at time 0
with expiry 600000 ms (10 minutes); a redemption attempt exactly at the
expiry timestamp is rejected with the invalid-or-expired error. -/
theorem resetPassword_rejects_invalid_or_expired_witness :
    resetPassword sampleSha sampleHash [sampleResetUser] (some "rtok")
        "NewPw1" "NewPw1" 600000
      = (.failure (AppError.mk "Password reset token is invalid or has expired." 400),
         [sampleResetUser]) :=
  resetPassword_rejects_invalid_or_expired sampleSha sampleHash
    [sampleResetUser] "rtok" "NewPw1" "NewPw1" 600000
    (by
      intro u hu _ e he
      rw [List.mem_singleton] at hu
      subst hu
      have he2 : (600000 : Nat) = e := Option.some.inj he
      omega)

/-- C3: when a record with a matching, unexpired reset fingerprint is
found, the token is unique to it, and the confirmation matches, a
successful `resetPassword` persists in one single update the new password
hash together with both reset fields cleared, and a second
`resetPassword` attempt with the same raw token — at any later time and
with any passwords — fails with the 400 `InvalidTokenError`. -/
theorem resetPassword_single_use
    (sha256 hashPw : String → String) (store : List UserRecord)
    (t password confirmPassword : String) (now : Nat) (u : UserRecord)
    (hfind : store.find? (resetMatches (sha256 t) now) = some u)
    (huniq : ∀ v ∈ store, v.passwordResetToken = some (sha256 t) → v.id = u.id)
    (hval : password = confirmPassword) :
    resetPassword sha256 hashPw store (some t) password confirmPassword now
      = (.success 200 "token",
         updateById store u.id
           { u with password := hashPw password,
                    passwordResetToken := none,
                    passwordResetExpires := none }) ∧
    ∀ (password2 confirmPassword2 : String) (now2 : Nat),
      (resetPassword sha256 hashPw
          (resetPassword sha256 hashPw store (some t) password confirmPassword now).2
          (some t) password2 confirmPassword2 now2).1
        = .failure (AppError.mk "Password reset token is invalid or has expired." 400) := by
  have h1 : resetPassword sha256 hashPw store (some t) password confirmPassword now
      = (.success 200 "token",
         updateById store u.id
           { u with password := hashPw password,
                    passwordResetToken := none,
                    passwordResetExpires := none }) := by
    simp only [resetPassword, hfind, hval, if_true]
  refine ⟨h1, ?_⟩
  intro password2 confirmPassword2 now2
  rw [h1]
  have hnone : (updateById store u.id
      { u with password := hashPw password,
               passwordResetToken := none,
               passwordResetExpires := none }).find?
        (resetMatches (sha256 t) now2) = none := by
    rw [List.find?_eq_none]
    intro w hw
    unfold updateById at hw
    obtain ⟨v, hv, rfl⟩ := List.mem_map.1 hw
    by_cases hid : (v.id == u.id) = true
    · simp only [hid, if_true]
      unfold resetMatches
      simp
    · simp only [hid, if_false]
      intro hmatch
      unfold resetMatches at hmatch
      rw [Bool.and_eq_true, beq_iff_eq] at hmatch
      have : v.id = u.id := huniq v hv hmatch.1
      rw [beq_iff_eq] at hid
      exact hid this
  simp only [resetPassword, hnone]

/-- C3 witness: the pending reset of `sampleResetUser` (expiry 600000)
is redeemed at time 0; the persisted record has the new hash and no reset
fields, and redeeming the same raw token a second time at time 0 is
rejected with the invalid-or-expired error. -/
theorem resetPassword_single_use_witness :
    resetPassword sampleSha sampleHash [sampleResetUser] (some "rtok")
        "NewPw1" "NewPw1" 0
      = (.success 200 "token",
         updateById [sampleResetUser] sampleResetUser.id
           { sampleResetUser with password := sampleHash "NewPw1",
                                  passwordResetToken := none,
                                  passwordResetExpires := none }) ∧
    (resetPassword sampleSha sampleHash
        (resetPassword sampleSha sampleHash [sampleResetUser] (some "rtok")
          "NewPw1" "NewPw1" 0).2
        (some "rtok") "NewPw1" "NewPw1" 0).1
      = .failure (AppError.mk "Password reset token is invalid or has expired." 400) := by
  have h := resetPassword_single_use sampleSha sampleHash [sampleResetUser]
    "rtok" "NewPw1" "NewPw1" 0 sampleResetUser (by decide)
    (by
      intro v hv _
      rw [List.mem_singleton] at hv
      rw [hv])
    rfl
  exact ⟨h.1, h.2 "NewPw1" "NewPw1" 0⟩

/-- C8: a successful `verifyEmail` changes nothing but the `isVerified`
field of the record whose id matches: the persisted store is the original
store with only that Boolean flipped on the matched record, and in
particular the verification-token fingerprint is still present in the
store afterwards. -/
theorem verifyEmail_frame
    (sha256 : String → String) (store : List UserRecord) (t : String)
    (u : UserRecord)
    (hfind : store.find? (verMatches (sha256 t)) = some u)
    (hids : ∀ v ∈ store, v.id = u.id → v = u) :
    (verifyEmail sha256 store (some t)).1
      = .success 200 "Email verified successfully." ∧
    (verifyEmail sha256 store (some t)).2
      = store.map (fun v => if v.id == u.id then { v with isVerified := true } else v) ∧
    ∃ w ∈ (verifyEmail sha256 store (some t)).2,
      w.emailVerificationToken = some (sha256 t) := by
  have h1 : verifyEmail sha256 store (some t)
      = (.success 200 "Email verified successfully.",
         updateById store u.id { u with isVerified := true }) := by
    simp only [verifyEmail, hfind]
  have hmap : updateById store u.id { u with isVerified := true }
      = store.map (fun v => if v.id == u.id then { v with isVerified := true } else v) := by
    unfold updateById
    refine List.map_congr_left ?_
    intro v hv
    by_cases hid : (v.id == u.id) = true
    · rw [beq_iff_eq] at hid
      rw [hids v hv hid]
    · simp [hid]
  have hmem : { u with isVerified := true }
      ∈ updateById store u.id { u with isVerified := true } := by
    unfold updateById
    refine List.mem_map.2 ⟨u, List.mem_of_find?_eq_some hfind, ?_⟩
    simp
  refine ⟨by rw [h1], by rw [h1]; exact hmap,
    ⟨{ u with isVerified := true }, ?_, ?_⟩⟩
  · rw [h1]
    exact hmem
  · have hp : verMatches (sha256 t) u = true := List.find?_some hfind
    unfold verMatches at hp
    rw [beq_iff_eq] at hp
    exact hp

/-- C8 witness: verifying `sampleUser` by its raw token leaves the
fingerprint in the store and flips only `isVerified`. -/
theorem verifyEmail_frame_witness :
    (verifyEmail sampleSha [sampleUser] (some "tok")).1
      = .success 200 "Email verified successfully." ∧
    (verifyEmail sampleSha [sampleUser] (some "tok")).2
      = [sampleUser].map
          (fun v => if v.id == sampleUser.id then { v with isVerified := true } else v) ∧
    ∃ w ∈ (verifyEmail sampleSha [sampleUser] (some "tok")).2,
      w.emailVerificationToken = some (sampleSha "tok") :=
  verifyEmail_frame sampleSha [sampleUser] "tok" sampleUser (by decide)
    (by
      intro v hv _
      rw [List.mem_singleton] at hv
      exact hv)

/-- C1 counterexample: `verifyEmail` never clears
`emailVerificationToken`, so redeeming the very same raw token a second
time finds the (already verified) record again and succeeds with 200
instead of failing with the 400 `InvalidTokenError`: the verification
token is not consumable at most once. -/
theorem verifyEmail_double_redeem_cex :
    (verifyEmail sampleSha [sampleUser] (some "tok")).1
      = .success 200 "Email verified successfully." ∧
    (verifyEmail sampleSha
        (verifyEmail sampleSha [sampleUser] (some "tok")).2 (some "tok")).1
      = .success 200 "Email verified successfully." ∧
    (verifyEmail sampleSha
        (verifyEmail sampleSha [sampleUser] (some "tok")).2 (some "tok")).1
      ≠ .failure (AppError.mk "Invalid or expired verification token." 400) :=
  ⟨rfl, rfl, by decide⟩

/-- C1 (amended): the first redemption of a verification token sets
`isVerified = true`, but the stored fingerprint is not cleared, so a
second `verifyEmail` call with the same raw token succeeds again
(idempotently re-verifying the record) instead of failing with
`InvalidTokenError`. -/
theorem verifyEmail_redeem_idempotent
    (sha256 : String → String) (store : List UserRecord) (t : String)
    (u : UserRecord)
    (hfind : store.find? (verMatches (sha256 t)) = some u)
    (hids : ∀ v ∈ store, v.id = u.id → v = u) :
    (verifyEmail sha256 store (some t)).1
      = .success 200 "Email verified successfully." ∧
    (∃ w ∈ (verifyEmail sha256 store (some t)).2,
      w.isVerified = true ∧ w.emailVerificationToken = some (sha256 t)) ∧
    (verifyEmail sha256
        (verifyEmail sha256 store (some t)).2 (some t)).1
      = .success 200 "Email verified successfully." := by
  have h1 : verifyEmail sha256 store (some t)
      = (.success 200 "Email verified successfully.",
         updateById store u.id { u with isVerified := true }) := by
    simp only [verifyEmail, hfind]
  have hp : verMatches (sha256 t) u = true := List.find?_some hfind
  have htok : u.emailVerificationToken = some (sha256 t) := by
    unfold verMatches at hp
    rwa [beq_iff_eq] at hp
  have hfind2 : (updateById store u.id { u with isVerified := true }).find?
      (verMatches (sha256 t)) = some { u with isVerified := true } := by
    unfold updateById
    rw [List.find?_map]
    have hcongr : store.find?
        (verMatches (sha256 t)
          ∘ fun v => if v.id == u.id then { u with isVerified := true } else v)
        = store.find? (verMatches (sha256 t)) := by
      refine find?_eqOn _ _ store ?_
      intro v hv
      by_cases hid : (v.id == u.id) = true
      · rw [beq_iff_eq] at hid
        rw [hids v hv hid]
        simp [Function.comp, verMatches]
      · simp [Function.comp, hid]
    rw [hcongr, hfind]
    simp
  refine ⟨by rw [h1], ?_, ?_⟩
  · refine ⟨{ u with isVerified := true }, ?_, rfl, htok⟩
    rw [h1]
    exact List.mem_of_find?_eq_some hfind2
  · rw [h1]
    show (verifyEmail sha256
      (updateById store u.id { u with isVerified := true }) (some t)).1
        = .success 200 "Email verified successfully."
    simp only [verifyEmail, hfind2]

/-- C1 (amended) witness: redeeming the token of `sampleUser` twice
succeeds both times. -/
theorem verifyEmail_redeem_idempotent_witness :
    (verifyEmail sampleSha [sampleUser] (some "tok")).1
      = .success 200 "Email verified successfully." ∧
    (∃ w ∈ (verifyEmail sampleSha [sampleUser] (some "tok")).2,
      w.isVerified = true ∧ w.emailVerificationToken = some (sampleSha "tok")) ∧
    (verifyEmail sampleSha
        (verifyEmail sampleSha [sampleUser] (some "tok")).2 (some "tok")).1
      = .success 200 "Email verified successfully." :=
  verifyEmail_redeem_idempotent sampleSha [sampleUser] "tok" sampleUser
    (by decide)
    (by
      intro v hv _
      rw [List.mem_singleton] at hv
      exact hv)

/-- C2 counterexample: `signup` persists the new record and only then
awaits the verification email, with no surrounding try/catch; when the
send fails, the flow fails (a thrown error surfacing as a 500) yet the
freshly persisted record — fingerprint included — survives in the store,
so a partial side effect does survive a signup failure. -/
theorem signup_email_failure_persists_record_cex :
    (signup sampleSha sampleHash [] "a@x.com" "Pw123456" "Pw123456" 1 "tok"
        false).1 = .thrown "EmailSendError" ∧
    ((signup sampleSha sampleHash [] "a@x.com" "Pw123456" "Pw123456" 1 "tok"
        false).1).isFailure = true ∧
    (signup sampleSha sampleHash [] "a@x.com" "Pw123456" "Pw123456" 1 "tok"
        false).2 ≠ [] ∧
    ∃ w ∈ (signup sampleSha sampleHash [] "a@x.com" "Pw123456" "Pw123456" 1
        "tok" false).2,
      w.email = "a@x.com" ∧ w.emailVerificationToken = some (sampleSha "tok") :=
  ⟨rfl, rfl, by decide, by decide⟩

/-- C2 (amended): every failure of `verifyEmail` and `resetPassword`
leaves the store unchanged, `login` performs no store writes at all (it
returns only a response), and a `forgotPassword` dispatch failure leaves
exactly the rolled-back record of section 4.5; but `signup` is an
exception beyond the one the claim grants: when its outbound verification
email fails after the record has been persisted, the flow fails while the
newly created record, with its token fingerprint, survives in the
store. -/
theorem failure_side_effects
    (sha256 hashPw : String → String) (store : List UserRecord) :
    (∀ tokenParam, ((verifyEmail sha256 store tokenParam).1).isFailure = true →
      (verifyEmail sha256 store tokenParam).2 = store) ∧
    (∀ tokenParam password confirmPassword now,
      ((resetPassword sha256 hashPw store tokenParam password confirmPassword
          now).1).isFailure = true →
      (resetPassword sha256 hashPw store tokenParam password confirmPassword
          now).2 = store) ∧
    (∀ email raw now emailOk,
      store.find? (fun u => u.email == email) = none →
      (forgotPassword sha256 store email raw now emailOk).2 = store) ∧
    (∀ email raw now u,
      store.find? (fun u => u.email == email) = some u →
      (forgotPassword sha256 store email raw now false).2
        = updateById store u.id
            { u with passwordResetToken := none,
                     passwordResetExpires := none }) ∧
    (∀ email password freshId raw,
      store.find? (fun u => u.email == email) = none →
      (signup sha256 hashPw store email password password freshId raw
          false).1 = .thrown "EmailSendError" ∧
      (signup sha256 hashPw store email password password freshId raw
          false).2
        = store ++
          [createEmailVerificationToken sha256 raw
            { id := freshId, email := email, password := hashPw password,
              isVerified := false, emailVerificationToken := none,
              passwordResetToken := none, passwordResetExpires := none }]) := by
  refine ⟨?_, ?_, ?_, ?_, ?_⟩
  · intro tokenParam
    cases tokenParam with
    | none => intro _; rfl
    | some t =>
      cases hF : store.find? (verMatches (sha256 t)) with
      | none => intro _; simp only [verifyEmail, hF]
      | some u =>
        intro h
        simp only [verifyEmail, hF, FlowResult.isFailure] at h
        exact absurd h Bool.false_ne_true
  · intro tokenParam password confirmPassword now
    cases tokenParam with
    | none => intro _; rfl
    | some t =>
      cases hF : store.find? (resetMatches (sha256 t) now) with
      | none => intro _; simp only [resetPassword, hF]
      | some u =>
        by_cases hv : password = confirmPassword
        · intro h
          simp only [resetPassword, hF, hv, if_true, FlowResult.isFailure] at h
          exact absurd h Bool.false_ne_true
        · intro _
          simp only [resetPassword, hF, hv, if_false]
  · intro email raw now emailOk h
    cases emailOk with
    | true => simp only [forgotPassword, h]
    | false => simp only [forgotPassword, h]
  · intro email raw now u h
    simp only [forgotPassword, h, Bool.false_eq_true, if_false]
    exact updateById_updateById store u.id
      (createPasswordResetToken sha256 raw now u)
      { u with passwordResetToken := none, passwordResetExpires := none } rfl
  · intro email password freshId raw h
    simp only [signup, h, if_true, Bool.false_eq_true, if_false]
    exact ⟨trivial, trivial⟩

/-- C2 (amended) witness: the per-flow side-effect facts evaluated on the
concrete one-record store `[sampleUser]`. -/
theorem failure_side_effects_witness :
    (verifyEmail sampleSha [sampleUser] none).2 = [sampleUser] ∧
    (resetPassword sampleSha sampleHash [sampleUser] none "p" "p" 0).2
      = [sampleUser] ∧
    (forgotPassword sampleSha [sampleUser] "zz@x.com" "rtok" 0 false).2
      = [sampleUser] ∧
    (forgotPassword sampleSha [sampleUser] "a@x.com" "rtok" 0 false).2
      = updateById [sampleUser] sampleUser.id
          { sampleUser with passwordResetToken := none,
                            passwordResetExpires := none } ∧
    (signup sampleSha sampleHash [sampleUser] "c@x.com" "Pw123456" "Pw123456"
        3 "tok3" false).2
      = [sampleUser] ++
        [createEmailVerificationToken sampleSha "tok3"
          { id := 3, email := "c@x.com", password := sampleHash "Pw123456",
            isVerified := false, emailVerificationToken := none,
            passwordResetToken := none, passwordResetExpires := none }] := by
  have h := failure_side_effects sampleSha sampleHash [sampleUser]
  exact ⟨h.1 none rfl, h.2.1 none "p" "p" 0 rfl,
    h.2.2.1 "zz@x.com" "rtok" 0 false (by decide),
    h.2.2.2.1 "a@x.com" "rtok" 0 sampleUser (by decide),
    (h.2.2.2.2 "c@x.com" "Pw123456" 3 "tok3" (by decide)).2⟩

/-- C4: when the record exists but the reset email send fails, the
persisted reset fields written just before are rolled back — the final
store holds the record with both fields cleared (every record carrying
the user id has them cleared) — and the 500 dispatch error is surfaced
to the caller. -/
theorem forgotPassword_rollback_on_dispatch_failure
    (sha256 : String → String) (store : List UserRecord)
    (email raw : String) (now : Nat) (u : UserRecord)
    (hfind : store.find? (fun v => v.email == email) = some u) :
    (forgotPassword sha256 store email raw now false).1
      = .failure (AppError.mk
          "There was an error sending the password reset email. Please try again later."
          500) ∧
    statusOf (forgotPassword sha256 store email raw now false).1 = 500 ∧
    (forgotPassword sha256 store email raw now false).2
      = updateById store u.id
          { u with passwordResetToken := none,
                   passwordResetExpires := none } ∧
    ∀ w ∈ (forgotPassword sha256 store email raw now false).2,
      w.id = u.id →
      w.passwordResetToken = none ∧ w.passwordResetExpires = none := by
  have h1 : (forgotPassword sha256 store email raw now false).1
      = .failure (AppError.mk
          "There was an error sending the password reset email. Please try again later."
          500) := by
    simp only [forgotPassword, hfind, Bool.false_eq_true, if_false]
  have h2 : (forgotPassword sha256 store email raw now false).2
      = updateById store u.id
          { u with passwordResetToken := none,
                   passwordResetExpires := none } := by
    simp only [forgotPassword, hfind, Bool.false_eq_true, if_false]
    exact updateById_updateById store u.id
      (createPasswordResetToken sha256 raw now u)
      { u with passwordResetToken := none, passwordResetExpires := none } rfl
  refine ⟨h1, by rw [h1]; rfl, h2, ?_⟩
  intro w hw hid
  rw [h2] at hw
  unfold updateById at hw
  obtain ⟨v, hv, rfl⟩ := List.mem_map.1 hw
  by_cases hvid : (v.id == u.id) = true
  · rw [if_pos hvid]
    exact ⟨rfl, rfl⟩
  · rw [if_neg hvid] at hid
    exact absurd hid (by rwa [beq_iff_eq] at hvid)

/-- C4 witness: a dispatch failure for the stored `a@x.com` record rolls
both reset fields back and surfaces the 500. -/
theorem forgotPassword_rollback_on_dispatch_failure_witness :
    (forgotPassword sampleSha [sampleUser] "a@x.com" "rtok" 0 false).1
      = .failure (AppError.mk
          "There was an error sending the password reset email. Please try again later."
          500) ∧
    (forgotPassword sampleSha [sampleUser] "a@x.com" "rtok" 0 false).2
      = updateById [sampleUser] sampleUser.id
          { sampleUser with passwordResetToken := none,
                            passwordResetExpires := none } := by
  have h := forgotPassword_rollback_on_dispatch_failure sampleSha [sampleUser]
    "a@x.com" "rtok" 0 sampleUser (by decide)
  exact ⟨h.1, h.2.2.1⟩

/-- C7: the protected-route gate rejects with the 401
`Invalid token provided` every request whose bearer token is absent or
shorter than 20 characters, and does so independently of the JWT
verifier and of the store (the cheap pre-check runs before signature
verification and lookup); a long-enough token failing signature
verification throws, which the error middleware surfaces as a 401; a
verified token whose subject id resolves to no record is rejected with a
401; and on success the gate returns the resolved user record, attached
for downstream handlers. -/
theorem protectedGate_contract
    (verifyJwt verifyJwt2 : String → Option Nat)
    (store store2 : List UserRecord) (authHeader : Option String) :
    (((extractBearer authHeader).isNone = true ∨
        ((extractBearer authHeader).getD "").length < 20) →
      protectedGate verifyJwt store authHeader
        = .err (AppError.mk "Invalid token provided" 401) ∧
      protectedGate verifyJwt store authHeader
        = protectedGate verifyJwt2 store2 authHeader ∧
      gateStatus (protectedGate verifyJwt store authHeader) = 401) ∧
    (∀ t, extractBearer authHeader = some t → ¬ t.length < 20 →
      verifyJwt t = none →
      protectedGate verifyJwt store authHeader = .jwtThrown ∧
      gateStatus (protectedGate verifyJwt store authHeader) = 401) ∧
    (∀ t id, extractBearer authHeader = some t → ¬ t.length < 20 →
      verifyJwt t = some id →
      store.find? (fun u => u.id == id) = none →
      protectedGate verifyJwt store authHeader
        = .err (AppError.mk
            "The user belonging to this token does no longer exist." 401)) ∧
    (∀ t id u, extractBearer authHeader = some t → ¬ t.length < 20 →
      verifyJwt t = some id →
      store.find? (fun u => u.id == id) = some u →
      protectedGate verifyJwt store authHeader = .ok u) := by
  refine ⟨?_, ?_, ?_, ?_⟩
  · intro h
    have hval : ∀ (f : String → Option Nat) (s : List UserRecord),
        protectedGate f s authHeader
          = .err (AppError.mk "Invalid token provided" 401) := by
      intro f s
      unfold protectedGate
      rcases h with h | h
      · simp [h]
      · simp [h]
    exact ⟨hval verifyJwt store,
      by rw [hval verifyJwt store, hval verifyJwt2 store2],
      by rw [hval verifyJwt store]; rfl⟩
  · intro t ht hlen hjwt
    have : protectedGate verifyJwt store authHeader = .jwtThrown := by
      unfold protectedGate
      simp [ht, hlen, hjwt]
    exact ⟨this, by rw [this]; rfl⟩
  · intro t id ht hlen hjwt hF
    unfold protectedGate
    simp [ht, hlen, hjwt, hF]
  · intro t id u ht hlen hjwt hF
    unfold protectedGate
    simp [ht, hlen, hjwt, hF]

/-- C7 witness: the four contract clauses evaluated on concrete
requests (no header; a 20-character token rejected by the verifier; a
verified token over an empty store; a verified token resolving to
`sampleUser`). -/
theorem protectedGate_contract_witness :
    protectedGate sampleJwt [sampleUser] none
      = .err (AppError.mk "Invalid token provided" 401) ∧
    protectedGate (fun _ => none) [sampleUser]
        (some "Bearer tokentokentokentoken") = .jwtThrown ∧
    protectedGate sampleJwt []
        (some "Bearer tokentokentokentoken")
      = .err (AppError.mk
          "The user belonging to this token does no longer exist." 401) ∧
    protectedGate sampleJwt [sampleUser]
        (some "Bearer tokentokentokentoken") = .ok sampleUser := by
  refine ⟨?_, ?_, ?_, ?_⟩
  · exact ((protectedGate_contract sampleJwt sampleJwt [sampleUser] [sampleUser]
      none).1 (Or.inl rfl)).1
  · exact ((protectedGate_contract (fun _ => none) (fun _ => none) [sampleUser]
      [sampleUser] (some "Bearer tokentokentokentoken")).2.1
      "tokentokentokentoken" (by decide) (by decide) rfl).1
  · exact (protectedGate_contract sampleJwt sampleJwt [] []
      (some "Bearer tokentokentokentoken")).2.2.1
      "tokentokentokentoken" 1 (by decide) (by decide) (by decide) rfl
  · exact (protectedGate_contract sampleJwt sampleJwt [sampleUser] [sampleUser]
      (some "Bearer tokentokentokentoken")).2.2.2
      "tokentokentokentoken" 1 sampleUser (by decide) (by decide) (by decide)
      (by decide)

end DevLinks
